import Mathlib

/-!
Verification model of the `mcp-bundler` package (`src/index.ts`).

The development shallowly embeds the TypeScript source: pure functions
become Lean functions, the stateful `McpBundler` class becomes a record
`Mgr` with explicit state-passing step functions, and the network
environment (transport open outcome, remote tool listings, remote call
outcomes) is passed in as explicit data.  Fields of the class map to
fields of `Mgr`; `null` object fields become `Bool`/`Option` values.
-/

/-! ## JavaScript values and `JSON.stringify` (for `formatError`) -/

mutual

/-- Model of the JavaScript runtime values `formatError` can receive.
`errorVal` is a value for which `v instanceof Error` holds (carrying its
`message`); `obj` is a plain object with enumerable string-keyed fields;
`undef` is the JavaScript `undefined` value. -/
inductive JSValue : Type where
  | errorVal (message : String)
  | str (s : String)
  | num (n : Int)
  | boolVal (b : Bool)
  | nullVal
  | undef
  | obj (fields : JSFields)

/-- Field list of a plain JavaScript object (association list, in
enumeration order; JavaScript object keys are unique). -/
inductive JSFields : Type where
  | nil
  | cons (key : String) (value : JSValue) (rest : JSFields)

end

/-- Hexadecimal digit character, for JSON control-character escapes. -/
def hexDigit (n : Nat) : Char :=
  if n < 10 then Char.ofNat (48 + n) else Char.ofNat (87 + n)

/-- JSON string escaping of one character, as performed by
`JSON.stringify` on string values and object keys. -/
def jsEscapeChar (c : Char) : String :=
  if c = '"' then "\\\""
  else if c = '\\' then "\\\\"
  else if c = '\n' then "\\n"
  else if c = '\r' then "\\r"
  else if c = '\t' then "\\t"
  else if c = '\x08' then "\\b"
  else if c = '\x0c' then "\\f"
  else if c.toNat < 32 then
    "\\u00" ++ String.singleton (hexDigit (c.toNat / 16)) ++
      String.singleton (hexDigit (c.toNat % 16))
  else String.singleton c

/-- JSON string escaping, character by character. -/
def jsEscape (s : String) : String :=
  String.join (s.toList.map jsEscapeChar)

mutual

/-- Model of `JSON.stringify`.  Returns `none` for `undefined` (in
JavaScript, `JSON.stringify(undefined)` evaluates to `undefined`, not to
a string).  An `Error` instance has no enumerable own properties, so it
serializes to the empty object.  Object fields whose value does not
serialize (`undefined`-valued fields) are dropped, as in JavaScript. -/
def jsonStringify : JSValue → Option String
  | .errorVal _ => some ("\x7b" ++ "\x7d")
  | .str s => some ("\"" ++ jsEscape s ++ "\"")
  | .num n => some (toString n)
  | .boolVal b => some (cond b "true" "false")
  | .nullVal => some "null"
  | .undef => none
  | .obj fields => some ("\x7b" ++ String.intercalate "," (jsonStringifyFields fields) ++ "\x7d")

/-- Serialization of the fields of a plain object, dropping fields whose
value does not serialize. -/
def jsonStringifyFields : JSFields → List String
  | .nil => []
  | .cons k v rest =>
    match jsonStringify v with
    | none => jsonStringifyFields rest
    | some sv => ("\"" ++ jsEscape k ++ "\":" ++ sv) :: jsonStringifyFields rest

end

/-- Translation of `formatError` (src/index.ts lines 33-37):
`if (error instanceof Error) return error.message;`
`if (typeof error === 'string') return error;`
`return JSON.stringify(error);`
The result is `Option String` because `JSON.stringify` can evaluate to
`undefined`.  -/
def formatError : JSValue → Option String
  | .errorVal m => some m
  | .str s => some s
  | v => jsonStringify v

/-! ## Schema adapter (`zodShapeFromJsonSchema`, src/index.ts lines 39-63) -/

/-- A declared property of a tool input schema: the only part of the
property object the adapter reads is `description`. -/
structure JsonSchemaProp where
  description : Option String
deriving DecidableEq, Repr

/-- A tool input schema document: optional `properties` record (in key
enumeration order) and optional `required` name list. -/
structure JsonSchemaDoc where
  properties : Option (List (String × JsonSchemaProp))
  required : Option (List String)
deriving DecidableEq, Repr

/-- One field of the produced zod shape: a `z.any()` based validator,
possibly carrying a description (from `.describe`) and possibly marked
optional (from `.optional()`). -/
structure ZodField where
  description : Option String
  optional : Bool
deriving DecidableEq, Repr

/-- The produced schema: `z.object(shape)` with `.passthrough()`
recorded by the `passthrough` flag. -/
structure ZodObjectSchema where
  shape : List (String × ZodField)
  passthrough : Bool
deriving DecidableEq, Repr

/-- JavaScript truthiness of the optional `description` string, as
tested by `if (prop?.description)`: an absent description and the empty
string are both falsy. -/
def truthyDescription : Option String → Bool
  | some d => d ≠ ""
  | none => false

/-- Translation of `zodShapeFromJsonSchema` (src/index.ts lines 39-63).
`required` defaults to the empty list; with no properties (absent or
empty record) the result is `z.object({}).passthrough()`; otherwise each
property becomes a `z.any()` field, described only when its description
is truthy, optional exactly when its name is not in `required`, and the
object is `.passthrough()`. -/
def zodShapeFromJsonSchema (inputSchema : JsonSchemaDoc) : ZodObjectSchema :=
  let required := inputSchema.required.getD []
  match inputSchema.properties with
  | none => { shape := [], passthrough := true }
  | some props =>
    if props.isEmpty then { shape := [], passthrough := true }
    else
      { shape := props.map (fun p =>
          (p.1,
           { description := if truthyDescription p.2.description then p.2.description else none
           , optional := !(required.contains p.1) }))
      , passthrough := true }

/-- Association-list lookup by key (first match), modelling record
member access `table[name]`. -/
def lookupAssoc {β : Type} : List (String × β) → String → Option β
  | [], _ => none
  | p :: rest, n => if p.1 = n then some p.2 else lookupAssoc rest n

/-- Lookup of a field of a plain JavaScript object value. -/
def lookupJS : JSFields → String → Option JSValue
  | .nil, _ => none
  | .cons k v rest, n => if k = n then some v else lookupJS rest n

/-- Acceptance semantics of one produced zod field, modelled from the
zod combinators the adapter uses: a `z.any()` based field accepts every
present value, and accepts an absent value exactly when the field was
marked `.optional()`. -/
def fieldAccepts (f : ZodField) : Option JSValue → Bool
  | none => f.optional
  | some _ => true

/-- Acceptance semantics of the produced object schema: every field of
the shape must accept what the input provides for it; fields of the
input not in the shape never cause rejection (the shape is
`.passthrough()`). -/
def objectAccepts (sch : ZodObjectSchema) (input : JSFields) : Bool :=
  sch.shape.all (fun p => fieldAccepts p.2 (lookupJS input p.1))

/-! ## The connection lifecycle manager (`McpBundler`) -/

/-- The four connection states (src/index.ts lines 8-12). -/
inductive ConnectionState : Type where
  | idle
  | connecting
  | connected
  | disconnected
deriving DecidableEq, Repr

/-- Reconnect policy (src/index.ts lines 14-18).  `maxRetries := none`
models the default `Number.POSITIVE_INFINITY`. -/
structure ReconnectOptions where
  enabled : Bool
  intervalMs : Nat
  maxRetries : Option Nat
deriving DecidableEq, Repr

/-- A remote tool descriptor: the fields of `Tool` the bundler reads. -/
structure Tool where
  name : String
  description : Option String
  inputSchema : JsonSchemaDoc
deriving DecidableEq, Repr

/-- Mutable state of one `McpBundler` instance (src/index.ts lines
68-83).  `client` records whether `this.client` is non-null (the
`transport` field always tracks it and is not modelled separately);
`reconnectTimer` records whether a reconnect timer is pending. -/
structure Mgr where
  state : ConnectionState
  client : Bool
  retryCount : Nat
  reconnectTimer : Bool
  registeredToolNames : List String
  lastToolNames : List String
  closed : Bool
deriving DecidableEq, Repr

/-- Field initializers of the class (src/index.ts lines 78-83). -/
def initMgr : Mgr :=
  { state := .idle, client := false, retryCount := 0, reconnectTimer := false
  , registeredToolNames := [], lastToolNames := [], closed := false }

/-- Notifications the manager emits (src/index.ts lines 27-31). -/
inductive Ev : Type where
  | connectedEv
  | disconnectedEv
  | toolsChangedEv (tools : List Tool)
deriving DecidableEq, Repr

/-- Outcome of one remote `client.listTools()` call, supplied by the
environment. -/
inductive ListingOutcome : Type where
  | ok (tools : List Tool)
  | failed
deriving DecidableEq, Repr

/-- Environment of one `connect()` call: whether
`client.connect(transport)` resolves, and the outcome of the initial
remote tool listing. -/
structure ConnectEnv where
  openOk : Bool
  listing : ListingOutcome
deriving DecidableEq, Repr

/-- The test `this.retryCount >= this.reconnectOpts.maxRetries`
(src/index.ts line 268); with `maxRetries = Infinity` it is false. -/
def retryAtMax (opts : ReconnectOptions) (retryCount : Nat) : Bool :=
  match opts.maxRetries with
  | none => false
  | some m => decide (m ≤ retryCount)

/-- Translation of the synchronous part of `scheduleReconnect`
(src/index.ts lines 265-281): guards on `closed`, `enabled` and the
retry cap, then increments the retry counter and arms the one-shot
timer. -/
def scheduleReconnectFn (opts : ReconnectOptions) (s : Mgr) : Mgr :=
  if s.closed = true then s
  else if opts.enabled = false then s
  else if retryAtMax opts s.retryCount = true then s
  else { s with retryCount := s.retryCount + 1, reconnectTimer := true }

/-- Translation of `listTools` (src/index.ts lines 151-162): empty when
there is no client or the state is not `connected`; otherwise the remote
listing, with a failed listing caught and turned into the empty list. -/
def listToolsFn (s : Mgr) (remote : ListingOutcome) : List Tool :=
  if s.client = false ∨ ¬ s.state = .connected then []
  else
    match remote with
    | .ok ts => ts
    | .failed => []

/-- Successful branch of `connect` (src/index.ts lines 132-141): state
becomes `connected`, the retry counter resets, the tool-name snapshot is
replaced by the names of the initial listing (via `listTools`, which
swallows a listing failure into the empty list). -/
def connectSucceeded (env : ConnectEnv) (s : Mgr) : Mgr :=
  let s2 : Mgr := { s with state := .connected, client := true, retryCount := 0 }
  { s2 with lastToolNames := (listToolsFn s2 env.listing).map Tool.name }

/-- Translation of `connect` (src/index.ts lines 105-149).  No-op when
closed or already `connecting`/`connected`; on open failure the catch
branch leaves the freshly created client in place, sets
`disconnected` and calls `scheduleReconnect`; on open success it emits
`connected` after snapshotting the initial listing. -/
def connectFn (opts : ReconnectOptions) (env : ConnectEnv) (s : Mgr) : Mgr × List Ev :=
  if s.closed = true then (s, [])
  else if s.state = .connecting ∨ s.state = .connected then (s, [])
  else if env.openOk = true then
    (connectSucceeded env s, [Ev.connectedEv])
  else
    (scheduleReconnectFn opts { s with state := .disconnected, client := true }, [])

/-- Translation of `handleDisconnect` (src/index.ts lines 257-263):
state `disconnected`, snapshot cleared, `disconnected` emitted,
reconnect scheduling attempted. -/
def handleDisconnectFn (opts : ReconnectOptions) (s : Mgr) : Mgr × List Ev :=
  (scheduleReconnectFn opts { s with state := .disconnected, lastToolNames := [] },
   [Ev.disconnectedEv])

/-- The `transport.onclose` handler installed by `connect`
(src/index.ts lines 120-124): it reacts only while `connected`. -/
def transportClosedFn (opts : ReconnectOptions) (s : Mgr) : Mgr × List Ev :=
  if s.state = .connected then handleDisconnectFn opts s else (s, [])

/-- Translation of `close` (src/index.ts lines 237-255): sets the
shutdown flag, cancels any pending timer, closes and discards any client
(close failures are only logged), and ends in `idle`. -/
def closeFn (s : Mgr) : Mgr :=
  { s with closed := true, reconnectTimer := false, client := false, state := .idle }

/-- Insertion into `registeredToolNames` (`Set.add`): insertion order,
no duplicates. -/
def insertName (l : List String) (n : String) : List String :=
  if n ∈ l then l else l ++ [n]

/-- State effect of `registerTools` (src/index.ts lines 164-219): every
listed tool's name is added to the registration set.  (The installed
proxy behavior is modelled separately by `proxyHandler`.) -/
def registerToolsFn (s : Mgr) (listing : ListingOutcome) : Mgr :=
  { s with registeredToolNames :=
      (listToolsFn s listing).foldl (fun acc t => insertName acc t.name) s.registeredToolNames }

/-- Translation of `unregisterTools` (src/index.ts lines 221-235).  The
host is `none` when it has no `_registeredTools` record at all (early
return, registration set untouched); otherwise the table maps an
installed name to whether it exposes a `remove` function.  The second
component lists the names whose removal was requested, in iteration
order of the registration set. -/
def unregisterToolsFn (host : Option (List (String × Bool))) (s : Mgr) :
    Mgr × List String :=
  match host with
  | none => (s, [])
  | some table =>
    ({ s with registeredToolNames := [] },
     s.registeredToolNames.filter (fun n => (lookupAssoc table n).getD false))

/-- Translation of `getTools` (src/index.ts lines 101-103): a copy of
the snapshot. -/
def getToolsFn (s : Mgr) : List String :=
  s.lastToolNames

/-- Ordered insertion for the string sort below. -/
def insertSorted (x : String) : List String → List String
  | [] => [x]
  | y :: ys => if x ≤ y then x :: y :: ys else y :: insertSorted x ys

/-- Ascending string sort, modelling `Array.prototype.sort()` on string
arrays (the code only compares the two sorted arrays for equality, for
which any correct ascending sort is interchangeable). -/
def sortNames : List String → List String
  | [] => []
  | x :: xs => insertSorted x (sortNames xs)

/-- Translation of the reconnect timer callback (src/index.ts lines
282-310): disarm, reset to `idle`, discard any stale client (close
failures ignored), re-run `connect`, and if it reached `connected`,
list again and emit `tools_changed` when the sorted name arrays differ
(`JSON.stringify` on string arrays is injective, so the comparison is
list equality of the sorted names).  A manager with no pending timer
cannot fire. -/
def timerFireFn (opts : ReconnectOptions) (env : ConnectEnv)
    (relisting : ListingOutcome) (s : Mgr) : Mgr × List Ev :=
  if s.reconnectTimer = false then (s, [])
  else
    match connectFn opts env { s with reconnectTimer := false, state := .idle, client := false } with
    | (s2, evs) =>
      if s2.state = .connected then
        let tools := listToolsFn s2 relisting
        if ¬ sortNames (tools.map Tool.name) = sortNames s2.lastToolNames then
          ({ s2 with lastToolNames := tools.map Tool.name }, evs ++ [Ev.toolsChangedEv tools])
        else (s2, evs)
      else (s2, evs)

/-- One content item of a tool result. -/
structure ContentItem where
  type : String
  text : String
deriving DecidableEq, Repr

/-- A tool call result (`content` plus the error flag). -/
structure CallToolResult where
  content : List ContentItem
  isError : Bool
deriving DecidableEq, Repr

/-- Remote `client.callTool` outcome, supplied by the environment. -/
inductive CallOutcome : Type where
  | ok (result : CallToolResult)
  | failed (error : JSValue)

/-- Translation of the proxy callback installed by `registerTools`
(src/index.ts lines 178-214).  The Boolean result records whether the
remote call was attempted.  The supplied arguments are forwarded to the
remote call and do not otherwise affect the behavior. -/
def proxyHandler (mgrName toolName : String) (s : Mgr) (_args : JSFields)
    (remote : CallOutcome) : CallToolResult × Bool :=
  if s.client = false ∨ ¬ s.state = .connected then
    ({ content := [{ type := "text"
                   , text := s!"[{mgrName}] Not connected — cannot call {toolName}" }]
     , isError := true }, false)
  else
    match remote with
    | .ok r => (r, true)
    | .failed e =>
      ({ content := [{ type := "text"
                     , text := s!"[{mgrName}] {toolName} failed: " ++ (formatError e).getD "undefined" }]
       , isError := true }, true)

/-- One externally triggered step of the manager: a caller API call, a
transport-closed signal, or the reconnect timer firing.  Each carries
the environment data its network operations consume. -/
inductive Op : Type where
  | connectOp (env : ConnectEnv)
  | closeOp
  | transportClosedOp
  | timerFireOp (env : ConnectEnv) (relisting : ListingOutcome)
  | registerToolsOp (listing : ListingOutcome)
  | unregisterToolsOp (host : Option (List (String × Bool)))
deriving DecidableEq, Repr

/-- Step function dispatching one operation. -/
def stepMgr (opts : ReconnectOptions) (s : Mgr) : Op → Mgr × List Ev
  | .connectOp env => connectFn opts env s
  | .closeOp => (closeFn s, [])
  | .transportClosedOp => transportClosedFn opts s
  | .timerFireOp env rel => timerFireFn opts env rel s
  | .registerToolsOp listing => (registerToolsFn s listing, [])
  | .unregisterToolsOp host => ((unregisterToolsFn host s).1, [])

/-- The manager state reached from a fresh instance by a sequence of
operations. -/
def runOps (opts : ReconnectOptions) (ops : List Op) : Mgr :=
  ops.foldl (fun s op => (stepMgr opts s op).1) initMgr

/-! ## Concrete instances shared by the claim theorems -/

/-- The constructor defaults (src/index.ts lines 90-94): reconnect
enabled, 5000 ms, unbounded retries. -/
def opts1 : ReconnectOptions := { enabled := true, intervalMs := 5000, maxRetries := none }

/-- An environment in which the transport open fails. -/
def envFail : ConnectEnv := { openOk := false, listing := .ok [] }

/-- A remote tool named `a` with an empty input schema. -/
def toolA : Tool :=
  { name := "a", description := none
  , inputSchema := { properties := none, required := none } }

/-- An environment in which the open succeeds and the remote lists the
single tool `a`. -/
def envOkA : ConnectEnv := { openOk := true, listing := .ok [toolA] }

/-- A reconnect policy with `maxRetries` 2. -/
def optsMax2 : ReconnectOptions := { enabled := true, intervalMs := 100, maxRetries := some 2 }

/-! ## Claim theorems -/

/-- C1: a scheduled reconnect attempt whose connection succeeds does NOT
emit `tools_changed` even though the tool set changed across the
reconnect.  Failing input: a fresh manager whose first `connect` fails
(snapshot is `[]`), whose reconnect timer then fires with the remote up
and consistently listing the single tool `a`.  The claim (and spec
test vector) requires `tools_changed` carrying `[a]`, since the new name
set `{a}` differs from the prior snapshot `∅`; the code's `connect()`
has already overwritten the snapshot with this same connection's listing
(src/index.ts line 139) before the comparison at lines 302-305, so the
callback compares `[a]` with `[a]` and emits only `connected`.  This
theorem evaluates the model at that input: the reconnect step ends
`connected` with new tools listed, yet its emitted events are exactly
`[connected]`, with no `tools_changed`. -/
theorem C1_reconnect_never_emits_tools_changed :
    getToolsFn (stepMgr opts1 initMgr (Op.connectOp envFail)).1 = [] ∧
    (stepMgr opts1 (stepMgr opts1 initMgr (Op.connectOp envFail)).1
        (Op.timerFireOp envOkA (ListingOutcome.ok [toolA]))).1.state = ConnectionState.connected ∧
    (stepMgr opts1 (stepMgr opts1 initMgr (Op.connectOp envFail)).1
        (Op.timerFireOp envOkA (ListingOutcome.ok [toolA]))).2 = [Ev.connectedEv] := by
  decide

/-- C8 counterexample: a plain (non-`Error`) object that carries a
`message` attribute is serialized by `formatError`, not unwrapped to its
message, because the code tests `error instanceof Error`
(src/index.ts line 34), not the presence of a `message` field. -/
theorem C8_plain_object_message_not_unwrapped :
    formatError (JSValue.obj (JSFields.cons "message" (JSValue.str "boom") JSFields.nil))
      = some "\x7b\"message\":\"boom\"\x7d" ∧
    ¬ formatError (JSValue.obj (JSFields.cons "message" (JSValue.str "boom") JSFields.nil))
      = some "boom" := by
  constructor <;> decide

/-- C8 (amended): `formatError` returns the message exactly for values
that are `Error` instances; a plain string is returned unchanged; every
other value — including a plain object carrying a `message` field — is
returned as its `JSON.stringify` serialization; `null` serializes to the
literal `"null"`, and a value with no serialization (`undefined`)
yields the JavaScript `undefined` value. -/
theorem C8_formatError_amended :
    (∀ m, formatError (JSValue.errorVal m) = some m) ∧
    (∀ s, formatError (JSValue.str s) = some s) ∧
    (∀ v : JSValue, (∀ m, ¬ v = JSValue.errorVal m) → (∀ s, ¬ v = JSValue.str s) →
      formatError v = jsonStringify v) ∧
    formatError JSValue.undef = none ∧
    formatError JSValue.nullVal = some "null" ∧
    formatError (JSValue.num 123) = some "123" ∧
    formatError (JSValue.obj (JSFields.cons "code" (JSValue.num 42) JSFields.nil))
      = some "\x7b\"code\":42\x7d" := by
  refine ⟨fun _ => rfl, fun _ => rfl, ?_, by decide, by decide, by decide, by decide⟩
  intro v h1 h2
  cases v with
  | errorVal m => exact absurd rfl (h1 m)
  | str s => exact absurd rfl (h2 s)
  | num n => rfl
  | boolVal b => rfl
  | nullVal => rfl
  | undef => rfl
  | obj fields => rfl

/-- C8 witness: the serialization case of the amended theorem applied at
the concrete value `true`. -/
theorem C8_formatError_amended_witness :
    formatError (JSValue.boolVal true) = jsonStringify (JSValue.boolVal true) :=
  C8_formatError_amended.2.2.1 (JSValue.boolVal true)
    (fun _ h => nomatch h) (fun _ h => nomatch h)

/-- Helper: `scheduleReconnect` only touches the retry counter and the
timer flag. -/
theorem scheduleReconnectFn_fields (opts : ReconnectOptions) (s : Mgr) :
    (scheduleReconnectFn opts s).state = s.state ∧
    (scheduleReconnectFn opts s).client = s.client ∧
    (scheduleReconnectFn opts s).lastToolNames = s.lastToolNames ∧
    (scheduleReconnectFn opts s).registeredToolNames = s.registeredToolNames ∧
    (scheduleReconnectFn opts s).closed = s.closed := by
  unfold scheduleReconnectFn
  split_ifs <;> exact ⟨rfl, rfl, rfl, rfl, rfl⟩

/-- C10: `close()` leaves the last-known tool-name snapshot unchanged —
`getTools()` after `close()` still returns the prior snapshot, not the
empty sequence — while the out-of-band disconnect handler does clear
the snapshot. -/
theorem C10_close_preserves_snapshot :
    ∀ (opts : ReconnectOptions) (s : Mgr),
      (closeFn s).lastToolNames = s.lastToolNames ∧
      getToolsFn (closeFn s) = getToolsFn s ∧
      (s.state = ConnectionState.connected →
        (transportClosedFn opts s).1.lastToolNames = []) := by
  intro opts s
  refine ⟨rfl, rfl, ?_⟩
  intro h
  show (transportClosedFn opts s).1.lastToolNames = []
  rw [transportClosedFn, if_pos h]
  show (scheduleReconnectFn opts { s with state := .disconnected, lastToolNames := [] }).lastToolNames = []
  exact (scheduleReconnectFn_fields opts _).2.2.1

/-- C10 witness: the disconnect clause applied to a concrete connected
manager (reached by one successful `connect` listing tool `a`). -/
theorem C10_close_preserves_snapshot_witness :
    (transportClosedFn opts1 (runOps opts1 [Op.connectOp envOkA])).1.lastToolNames = [] :=
  (C10_close_preserves_snapshot opts1 (runOps opts1 [Op.connectOp envOkA])).2.2 (by decide)

/-- C5: the proxy installed for a tool never raises: when the manager is
not `connected` it answers an error-flagged result whose text names the
tool and says the manager is not connected, without attempting the
remote call (second component `false`); when connected (with its live
client) it returns a successful remote result verbatim, and converts a
remote failure into an error-flagged result carrying the tool name and
the formatted failure. -/
theorem C5_proxy_contract :
    ∀ (mgrName toolName : String) (s : Mgr) (args : JSFields) (remote : CallOutcome),
      (¬ s.state = ConnectionState.connected →
        proxyHandler mgrName toolName s args remote =
          ({ content := [{ type := "text"
                         , text := s!"[{mgrName}] Not connected — cannot call {toolName}" }]
           , isError := true }, false)) ∧
      (s.state = ConnectionState.connected → s.client = true →
        (∀ r, remote = CallOutcome.ok r →
          proxyHandler mgrName toolName s args remote = (r, true)) ∧
        (∀ e, remote = CallOutcome.failed e →
          proxyHandler mgrName toolName s args remote =
            ({ content := [{ type := "text"
                           , text := s!"[{mgrName}] {toolName} failed: "
                               ++ (formatError e).getD "undefined" }]
             , isError := true }, true))) := by
  intro mgrName toolName s args remote
  constructor
  · intro h
    rw [proxyHandler.eq_def, if_pos (Or.inr h)]
  · intro hst hcl
    have hcond : ¬ (s.client = false ∨ ¬ s.state = ConnectionState.connected) := by
      simp [hcl, hst]
    constructor
    · intro r hr
      subst hr
      rw [proxyHandler.eq_def, if_neg hcond]
    · intro e he
      subst he
      rw [proxyHandler.eq_def, if_neg hcond]

/-- C5 witness: the not-connected clause at a fresh manager and the
verbatim clause at a connected manager, both with concrete data. -/
theorem C5_proxy_contract_witness :
    proxyHandler "test" "tool_a" initMgr JSFields.nil
        (CallOutcome.ok { content := [], isError := false }) =
      ({ content := [{ type := "text"
                     , text := "[test] Not connected — cannot call tool_a" }]
       , isError := true }, false) ∧
    proxyHandler "test" "tool_a" { initMgr with state := .connected, client := true } JSFields.nil
        (CallOutcome.ok { content := [], isError := false }) =
      ({ content := [], isError := false }, true) := by
  constructor
  · exact (C5_proxy_contract "test" "tool_a" initMgr JSFields.nil _).1 (by decide)
  · exact ((C5_proxy_contract "test" "tool_a"
      { initMgr with state := .connected, client := true } JSFields.nil _).2 rfl rfl).1 _ rfl

/-- C6 counterexample: when the host exposes no proxy table at all
(`_registeredTools` absent), `unregisterTools` returns early and the
registration set is NOT cleared, contradicting the claimed
unconditional clearing. -/
theorem C6_missing_table_keeps_registration :
    (unregisterToolsFn none { initMgr with registeredToolNames := ["tool_a"] }).1.registeredToolNames
      = ["tool_a"] ∧
    ¬ (unregisterToolsFn none { initMgr with registeredToolNames := ["tool_a"] }).1.registeredToolNames
      = [] := by
  constructor <;> decide

/-- C6 (amended): when the host exposes no proxy table at all,
`unregisterTools` is a no-op — no removal is requested and, in
particular, the registration set is left unchanged; when the host
exposes a proxy table (possibly empty), the registration set is cleared
and every requested removal is of a name from the registration set whose
table entry exposes a `remove` function (so other host entries are
untouched, and an empty table leads to no removals). -/
theorem C6_unregister_amended :
    ∀ (s : Mgr) (table : List (String × Bool)),
      unregisterToolsFn none s = (s, []) ∧
      (unregisterToolsFn (some table) s).1 = { s with registeredToolNames := [] } ∧
      (∀ n, n ∈ (unregisterToolsFn (some table) s).2 →
        n ∈ s.registeredToolNames ∧ (lookupAssoc table n).getD false = true) := by
  intro s table
  refine ⟨rfl, rfl, ?_⟩
  intro n hn
  rw [unregisterToolsFn] at hn
  simp only [List.mem_filter] at hn
  exact hn

/-- C6 witness: the removal-membership clause at the spec's example —
registration set `[tool_a]`, host table `tool_a, tool_b` — where the
requested removals are exactly `[tool_a]`. -/
theorem C6_unregister_amended_witness :
    "tool_a" ∈ ({ initMgr with registeredToolNames := ["tool_a"] } : Mgr).registeredToolNames ∧
    (lookupAssoc [("tool_a", true), ("tool_b", true)] "tool_a").getD false = true :=
  (C6_unregister_amended { initMgr with registeredToolNames := ["tool_a"] }
    [("tool_a", true), ("tool_b", true)]).2.2 "tool_a" (by decide)

/-- C7: reconnect scheduling never exceeds `maxRetries` — when the retry
counter has reached the cap, `scheduleReconnect` changes nothing (no
timer armed); the retry counter is reset to 0 by every successful
connection; and in the spec's concrete scenario (`maxRetries = 2`, a
failed connect followed by two failed reconnect attempts) no third
attempt is scheduled. -/
theorem C7_retry_cap :
    (∀ (opts : ReconnectOptions) (s : Mgr),
        retryAtMax opts s.retryCount = true → scheduleReconnectFn opts s = s) ∧
    (∀ (opts : ReconnectOptions) (env : ConnectEnv) (s : Mgr),
        s.closed = false → ¬ s.state = ConnectionState.connecting →
        ¬ s.state = ConnectionState.connected → env.openOk = true →
        (connectFn opts env s).1.retryCount = 0) ∧
    ((runOps optsMax2 [Op.connectOp envFail, Op.timerFireOp envFail (ListingOutcome.ok []),
        Op.timerFireOp envFail (ListingOutcome.ok [])]).reconnectTimer = false ∧
     (runOps optsMax2 [Op.connectOp envFail, Op.timerFireOp envFail (ListingOutcome.ok []),
        Op.timerFireOp envFail (ListingOutcome.ok [])]).retryCount = 2) := by
  refine ⟨?_, ?_, by decide⟩
  · intro opts s h
    unfold scheduleReconnectFn
    split_ifs <;> rfl
  · intro opts env s h1 h2 h3 h4
    simp [connectFn, h1, h2, h3, h4, connectSucceeded]

/-- C7 witness: the cap clause at a manager whose counter sits at the
cap, and the reset clause at a fresh successful connect. -/
theorem C7_retry_cap_witness :
    scheduleReconnectFn optsMax2 { initMgr with retryCount := 2 } = { initMgr with retryCount := 2 } ∧
    (connectFn opts1 envOkA initMgr).1.retryCount = 0 :=
  ⟨C7_retry_cap.1 optsMax2 { initMgr with retryCount := 2 } (by decide),
   C7_retry_cap.2.1 opts1 envOkA initMgr rfl (by decide) (by decide) rfl⟩

/-- C2 counterexample: (a) with the transport open succeeding and the
initial remote listing failing, `connect` still ends `connected` and
emits `connected` (the listing failure is swallowed inside `listTools`),
contradicting the claimed transition to `disconnected`; (b) with
reconnect enabled but `maxRetries` 0, a failed open schedules no
reconnect attempt, contradicting the claimed "exactly when reconnect is
enabled and shutdown has not been requested". -/
theorem C2_listing_failure_still_connects :
    ((connectFn opts1 { openOk := true, listing := .failed } initMgr).1.state
        = ConnectionState.connected ∧
      (connectFn opts1 { openOk := true, listing := .failed } initMgr).2
        = [Ev.connectedEv]) ∧
    (connectFn { enabled := true, intervalMs := 5000, maxRetries := some 0 } envFail
        initMgr).1.reconnectTimer = false := by
  refine ⟨⟨?_, ?_⟩, ?_⟩ <;> decide

/-- Helper: when the manager is not closed and no timer is pending,
`scheduleReconnect` arms the timer exactly when reconnect is enabled and
the retry counter is below the cap. -/
theorem scheduleReconnectFn_timer (opts : ReconnectOptions) (s : Mgr)
    (hc : s.closed = false) (ht : s.reconnectTimer = false) :
    (scheduleReconnectFn opts s).reconnectTimer = true ↔
      opts.enabled = true ∧ retryAtMax opts s.retryCount = false := by
  unfold scheduleReconnectFn
  split_ifs with h1 h2 h3
  · exact absurd h1 (by simp [hc])
  · simp [ht, h2]
  · simp [ht, h3]
  · simp only [Bool.not_eq_false] at h2
    simp only [Bool.not_eq_true] at h3
    simp [h2, h3]

/-- C2 (amended): for every `connect()` call that is allowed to proceed
(and with no reconnect timer already pending), a failure of the
transport open leaves the manager `disconnected`, emits nothing, and
arms a reconnect timer exactly when reconnect is enabled AND the retry
counter is below `maxRetries`; a failure of the initial tool listing is
swallowed: the manager still ends `connected` with an empty tool
snapshot and emits `connected`. -/
theorem C2_connect_failure_amended :
    ∀ (opts : ReconnectOptions) (env : ConnectEnv) (s : Mgr),
      s.closed = false → ¬ s.state = ConnectionState.connecting →
      ¬ s.state = ConnectionState.connected → s.reconnectTimer = false →
      ((env.openOk = false →
          (connectFn opts env s).1.state = ConnectionState.disconnected ∧
          (connectFn opts env s).2 = [] ∧
          ((connectFn opts env s).1.reconnectTimer = true ↔
            opts.enabled = true ∧ retryAtMax opts s.retryCount = false)) ∧
       (env.openOk = true → env.listing = ListingOutcome.failed →
          (connectFn opts env s).1.state = ConnectionState.connected ∧
          (connectFn opts env s).2 = [Ev.connectedEv] ∧
          (connectFn opts env s).1.lastToolNames = [])) := by
  intro opts env s h1 h2 h3 h4
  constructor
  · intro hopen
    have hstep : connectFn opts env s
        = (scheduleReconnectFn opts { s with state := .disconnected, client := true }, []) := by
      unfold connectFn
      rw [if_neg (by simp [h1]), if_neg (by tauto), if_neg (by simp [hopen])]
    rw [hstep]
    refine ⟨(scheduleReconnectFn_fields opts _).1, rfl, ?_⟩
    exact scheduleReconnectFn_timer opts _ h1 h4
  · intro hopen hlist
    have hstep : connectFn opts env s = (connectSucceeded env s, [Ev.connectedEv]) := by
      unfold connectFn
      rw [if_neg (by simp [h1]), if_neg (by tauto), if_pos hopen]
    rw [hstep]
    refine ⟨rfl, rfl, ?_⟩
    unfold connectSucceeded listToolsFn
    simp [hlist]

/-- C2 witness: the open-failure clause applied at a fresh manager with
the default options. -/
theorem C2_connect_failure_amended_witness :
    (connectFn opts1 envFail initMgr).1.state = ConnectionState.disconnected ∧
    (connectFn opts1 envFail initMgr).2 = [] ∧
    ((connectFn opts1 envFail initMgr).1.reconnectTimer = true ↔
      opts1.enabled = true ∧ retryAtMax opts1 initMgr.retryCount = false) :=
  (C2_connect_failure_amended opts1 envFail initMgr rfl (by decide) (by decide) rfl).1 rfl

/-- C3 counterexample: after a failed `connect`, the manager is
`disconnected` while the freshly created (never-connected) client object
is still held (the catch branch of `connect` does not null it),
contradicting the claimed "disconnected implies no connection object". -/
theorem C3_disconnected_retains_client :
    (runOps opts1 [Op.connectOp envFail]).state = ConnectionState.disconnected ∧
    (runOps opts1 [Op.connectOp envFail]).client = true := by
  constructor <;> decide

/-- The part of the connection-object invariant that the code does
maintain: a connected manager holds a client, an idle manager holds
none.  (A `disconnected` manager may retain a stale client object.) -/
def ClientInv (s : Mgr) : Prop :=
  (s.state = ConnectionState.connected → s.client = true) ∧
  (s.state = ConnectionState.idle → s.client = false)

/-- Helper: `connect` preserves the connection-object invariant. -/
theorem clientInv_connectFn (opts : ReconnectOptions) (env : ConnectEnv) (s : Mgr)
    (h : ClientInv s) : ClientInv (connectFn opts env s).1 := by
  unfold connectFn
  split_ifs with h1 h2 h3
  · exact h
  · exact h
  · exact ⟨fun _ => rfl, fun hi => nomatch hi⟩
  · have hs := scheduleReconnectFn_fields opts { s with state := .disconnected, client := true }
    constructor
    · intro _
      rw [hs.2.1]
    · intro hi
      rw [hs.1] at hi
      exact nomatch hi

/-- Helper: every operation preserves the connection-object invariant. -/
theorem clientInv_step (opts : ReconnectOptions) (s : Mgr) (op : Op)
    (h : ClientInv s) : ClientInv (stepMgr opts s op).1 := by
  cases op with
  | connectOp env => exact clientInv_connectFn opts env s h
  | closeOp => exact ⟨(fun hc => nomatch hc), (fun _ => rfl)⟩
  | transportClosedOp =>
    show ClientInv (transportClosedFn opts s).1
    unfold transportClosedFn
    split_ifs with hcon
    · unfold handleDisconnectFn
      have hs := scheduleReconnectFn_fields opts { s with state := .disconnected, lastToolNames := [] }
      constructor
      · intro hc
        rw [hs.1] at hc
        exact nomatch hc
      · intro hi
        rw [hs.1] at hi
        exact nomatch hi
    · exact h
  | timerFireOp env rel =>
    show ClientInv (timerFireFn opts env rel s).1
    unfold timerFireFn
    split_ifs with ht
    · exact h
    · have h1 : ClientInv { s with reconnectTimer := false, state := ConnectionState.idle, client := false } :=
        ⟨(fun hc => nomatch hc), (fun _ => rfl)⟩
      have h2 := clientInv_connectFn opts env _ h1
      rcases hcf : connectFn opts env { s with reconnectTimer := false, state := ConnectionState.idle, client := false } with ⟨s2, evs⟩
      rw [hcf] at h2
      dsimp only
      split_ifs with hcon hne
      · exact h2
      · exact h2
      · exact h2
  | registerToolsOp l => exact h
  | unregisterToolsOp host => cases host <;> exact h

/-- C3 (amended): in every reachable manager state, `connected` implies
a live client object is held, and `idle` implies none is; in
`disconnected` the code may retain a stale client object (see the
counterexample), which the reconnect timer or `close()` later discards. -/
theorem C3_connection_invariant_amended :
    ∀ (opts : ReconnectOptions) (ops : List Op),
      ((runOps opts ops).state = ConnectionState.connected → (runOps opts ops).client = true) ∧
      ((runOps opts ops).state = ConnectionState.idle → (runOps opts ops).client = false) := by
  intro opts ops
  suffices h : ∀ (l : List Op) (s : Mgr), ClientInv s →
      ClientInv (l.foldl (fun s op => (stepMgr opts s op).1) s) from
    h ops initMgr ⟨(fun hc => nomatch hc), (fun _ => rfl)⟩
  intro l
  induction l with
  | nil => intro s hs; exact hs
  | cons op rest ih =>
    intro s hs
    exact ih _ (clientInv_step opts s op hs)

/-- C3 witness: the connected clause at a manager reached by one
successful `connect`. -/
theorem C3_connection_invariant_amended_witness :
    (runOps opts1 [Op.connectOp envOkA]).client = true :=
  (C3_connection_invariant_amended opts1 [Op.connectOp envOkA]).1 (by decide)

/-- A manager state settled by `close()`: shutdown flag set, idle, no
pending timer, no client. -/
def ClosedSettled (s : Mgr) : Prop :=
  s.closed = true ∧ s.state = ConnectionState.idle ∧
  s.reconnectTimer = false ∧ s.client = false

/-- Helper: every operation preserves the closed-settled state. -/
theorem closedSettled_step (opts : ReconnectOptions) (s : Mgr) (op : Op)
    (h : ClosedSettled s) : ClosedSettled (stepMgr opts s op).1 := by
  obtain ⟨h1, h2, h3, h4⟩ := h
  cases op with
  | connectOp env =>
    show ClosedSettled (connectFn opts env s).1
    unfold connectFn
    rw [if_pos h1]
    exact ⟨h1, h2, h3, h4⟩
  | closeOp => exact ⟨rfl, rfl, rfl, rfl⟩
  | transportClosedOp =>
    show ClosedSettled (transportClosedFn opts s).1
    unfold transportClosedFn
    rw [if_neg (by simp [h2])]
    exact ⟨h1, h2, h3, h4⟩
  | timerFireOp env rel =>
    show ClosedSettled (timerFireFn opts env rel s).1
    unfold timerFireFn
    rw [if_pos h3]
    exact ⟨h1, h2, h3, h4⟩
  | registerToolsOp l => exact ⟨h1, h2, h3, h4⟩
  | unregisterToolsOp host => cases host <;> exact ⟨h1, h2, h3, h4⟩

/-- Helper: the closed-settled state persists under any continuation. -/
theorem closedSettled_foldl (opts : ReconnectOptions) :
    ∀ (l : List Op) (s : Mgr), ClosedSettled s →
      ClosedSettled (l.foldl (fun s op => (stepMgr opts s op).1) s) := by
  intro l
  induction l with
  | nil => intro s hs; exact hs
  | cons op rest ih =>
    intro s hs
    exact ih _ (closedSettled_step opts s op hs)

/-- C4: once `close()` has run, no matter what operations precede or
follow it, the manager stays `idle` with the shutdown flag set and no
pending reconnect timer; every subsequent `connect()` call is a strict
no-op (same state, no events), and the reconnect timer can never fire
(its step is also a strict no-op). -/
theorem C4_close_terminal :
    ∀ (opts : ReconnectOptions) (ops1 ops2 : List Op) (env : ConnectEnv) (rel : ListingOutcome),
      (runOps opts (ops1 ++ Op.closeOp :: ops2)).closed = true ∧
      (runOps opts (ops1 ++ Op.closeOp :: ops2)).state = ConnectionState.idle ∧
      (runOps opts (ops1 ++ Op.closeOp :: ops2)).reconnectTimer = false ∧
      stepMgr opts (runOps opts (ops1 ++ Op.closeOp :: ops2)) (Op.connectOp env)
        = ((runOps opts (ops1 ++ Op.closeOp :: ops2)), []) ∧
      stepMgr opts (runOps opts (ops1 ++ Op.closeOp :: ops2)) (Op.timerFireOp env rel)
        = ((runOps opts (ops1 ++ Op.closeOp :: ops2)), []) := by
  intro opts ops1 ops2 env rel
  have hs : ClosedSettled (runOps opts (ops1 ++ Op.closeOp :: ops2)) := by
    unfold runOps
    rw [List.foldl_append, List.foldl_cons]
    exact closedSettled_foldl opts ops2 _ ⟨rfl, rfl, rfl, rfl⟩
  have hconnect : connectFn opts env (runOps opts (ops1 ++ Op.closeOp :: ops2))
      = ((runOps opts (ops1 ++ Op.closeOp :: ops2)), []) := by
    unfold connectFn
    rw [if_pos hs.1]
  have htimer : timerFireFn opts env rel (runOps opts (ops1 ++ Op.closeOp :: ops2))
      = ((runOps opts (ops1 ++ Op.closeOp :: ops2)), []) := by
    unfold timerFireFn
    rw [if_pos hs.2.2.1]
  exact ⟨hs.1, hs.2.1, hs.2.2.1, hconnect, htimer⟩

/-- C9 counterexample: a property whose description is present but empty
(`""`) gets NO description attached, because the code tests JavaScript
truthiness (`if (prop?.description)`), under which the present empty
string is falsy — contradicting "attaches the property's description
when present". -/
theorem C9_empty_description_not_attached :
    (zodShapeFromJsonSchema
        { properties := some [("x", { description := some "" })], required := none }).shape
      = [("x", { description := none, optional := true })] ∧
    ¬ (zodShapeFromJsonSchema
        { properties := some [("x", { description := some "" })], required := none }).shape
      = [("x", { description := some "", optional := true })] := by
  constructor <;> decide

/-- Helper: looking a key up in a key-preserving mapped association list
is mapping the original lookup. -/
theorem lookupAssoc_map {β γ : Type} (g : String → β → γ) :
    ∀ (l : List (String × β)) (n : String),
      lookupAssoc (l.map (fun p => (p.1, g p.1 p.2))) n = (lookupAssoc l n).map (g n) := by
  intro l
  induction l with
  | nil => intro n; rfl
  | cons p rest ih =>
    intro n
    simp only [List.map_cons, lookupAssoc]
    by_cases hp : p.1 = n
    · subst hp
      simp
    · simp only [if_neg hp]
      exact ih n

/-- Helper: a failed lookup means no entry carries the key. -/
theorem lookupAssoc_eq_none {β : Type} :
    ∀ (l : List (String × β)) (n : String), lookupAssoc l n = none →
      ∀ p ∈ l, ¬ p.1 = n := by
  intro l n
  induction l with
  | nil => intro _ p hp; exact absurd hp (List.not_mem_nil p)
  | cons q rest ih =>
    intro h p hp
    unfold lookupAssoc at h
    split_ifs at h with hq
    rcases List.mem_cons.mp hp with heq | hmem
    · rw [heq]; exact hq
    · exact ih h p hmem

/-- Helper: adding to the input a field whose key is not in the shape
does not change acceptance. -/
theorem all_fieldAccepts_extend :
    ∀ (l : List (String × ZodField)) (input : JSFields) (name : String) (v : JSValue),
      (∀ p ∈ l, ¬ p.1 = name) →
      l.all (fun p => fieldAccepts p.2 (lookupJS (JSFields.cons name v input) p.1))
        = l.all (fun p => fieldAccepts p.2 (lookupJS input p.1)) := by
  intro l input name v h
  induction l with
  | nil => rfl
  | cons q rest ih =>
    simp only [List.all_cons]
    have hq : ¬ q.1 = name := h q (List.mem_cons_self q rest)
    have hlv : lookupJS (JSFields.cons name v input) q.1 = lookupJS input q.1 := by
      simp only [lookupJS]
      rw [if_neg (fun he => hq he.symm)]
    rw [hlv, ih (fun p hp => h p (List.mem_cons_of_mem q hp))]

/-- C9 (amended): the adapter always produces a `.passthrough()` object
schema; with no declared properties (absent or empty) the shape is
empty; each declared property is looked up in the shape as a `z.any()`
field that is optional exactly when its name is absent from the
required list and carries the property's description exactly when that
description is present AND non-empty (JavaScript-truthy); acceptance
ignores input fields outside the shape (unknown extras are tolerated);
and any input providing a value for every non-optional shape field is
accepted (each per-field validator accepts any present value). -/
theorem C9_schema_adapter_amended :
    ∀ (doc : JsonSchemaDoc),
      (zodShapeFromJsonSchema doc).passthrough = true ∧
      ((doc.properties = none ∨ doc.properties = some []) →
        (zodShapeFromJsonSchema doc).shape = []) ∧
      (∀ props name prop, doc.properties = some props →
        lookupAssoc props name = some prop →
        lookupAssoc (zodShapeFromJsonSchema doc).shape name =
          some { description := if truthyDescription prop.description then prop.description else none
               , optional := !((doc.required.getD []).contains name) }) ∧
      (∀ (input : JSFields) (name : String) (v : JSValue),
        lookupAssoc (zodShapeFromJsonSchema doc).shape name = none →
        objectAccepts (zodShapeFromJsonSchema doc) (JSFields.cons name v input) =
          objectAccepts (zodShapeFromJsonSchema doc) input) ∧
      (∀ input : JSFields,
        (∀ p, p ∈ (zodShapeFromJsonSchema doc).shape → p.2.optional = false →
          (lookupJS input p.1).isSome = true) →
        objectAccepts (zodShapeFromJsonSchema doc) input = true) := by
  intro doc
  refine ⟨?_, ?_, ?_, ?_, ?_⟩
  · unfold zodShapeFromJsonSchema
    rcases doc.properties with _ | props
    · rfl
    · dsimp only
      split_ifs <;> rfl
  · intro hp
    unfold zodShapeFromJsonSchema
    rcases hp with hp | hp <;> (rw [hp]; try rfl)
  · intro props name prop hprops hlook
    unfold zodShapeFromJsonSchema
    rw [hprops]
    dsimp only
    have hne : props.isEmpty = false := by
      cases props with
      | nil => exact absurd hlook (by simp [lookupAssoc])
      | cons q rest => rfl
    rw [if_neg (by simp [hne])]
    dsimp only
    rw [lookupAssoc_map (fun n b =>
          ({ description := if truthyDescription b.description then b.description else none
           , optional := !((doc.required.getD []).contains n) } : ZodField)) props name]
    rw [hlook]
    rfl
  · intro input name v hnone
    unfold objectAccepts
    exact all_fieldAccepts_extend _ input name v
      (lookupAssoc_eq_none (zodShapeFromJsonSchema doc).shape name hnone)
  · intro input hreq
    unfold objectAccepts
    rw [List.all_eq_true]
    intro p hp
    cases hlv : lookupJS input p.1 with
    | some w => rfl
    | none =>
      show fieldAccepts p.2 none = true
      unfold fieldAccepts
      cases hopt : p.2.optional with
      | true => rfl
      | false =>
        have := hreq p hp hopt
        rw [hlv] at this
        exact absurd this (by simp)

/-- C9 witness: the per-field clause at a concrete schema with one
required, described property `y`, and the acceptance clause at an input
providing `y`. -/
theorem C9_schema_adapter_amended_witness :
    lookupAssoc (zodShapeFromJsonSchema
        { properties := some [("y", { description := some "desc" })]
        , required := some ["y"] }).shape "y" =
      some { description := if truthyDescription (some "desc") then some "desc" else none
           , optional := !(((some ["y"] : Option (List String)).getD []).contains "y") } ∧
    objectAccepts (zodShapeFromJsonSchema
        { properties := some [("y", { description := some "desc" })]
        , required := some ["y"] })
      (JSFields.cons "y" JSValue.nullVal JSFields.nil) = true := by
  constructor
  · exact (C9_schema_adapter_amended
      { properties := some [("y", { description := some "desc" })]
      , required := some ["y"] }).2.2.1
      [("y", { description := some "desc" })] "y" { description := some "desc" }
      rfl (by decide)
  · exact (C9_schema_adapter_amended
      { properties := some [("y", { description := some "desc" })]
      , required := some ["y"] }).2.2.2.2
      (JSFields.cons "y" JSValue.nullVal JSFields.nil)
      (by
        intro p hp _
        have hsh : (zodShapeFromJsonSchema
            { properties := some [("y", { description := some "desc" })]
            , required := some ["y"] }).shape
            = [("y", ({ description := some "desc", optional := false } : ZodField))] := by
          decide
        rw [hsh] at hp
        rw [List.eq_of_mem_singleton hp]
        rfl)
